import Mathlib

/-!
Verification of the ArchWay file server (`monitor.py`): a shallow embedding of
its configuration, filtering, directory-scanning, sorting and request-routing
logic, together with theorems settling the specification's claims.
-/

namespace ArchWay

/-! ### String helpers mirroring the Python primitives used by the code.
All of them work on the underlying character list so they stay easy to
reason about.  ASCII case folding models Python's `str.lower` on the ASCII
names the server deals with. -/

/-- Python `str.lower` (ASCII model): lowercases every character. -/
def pyLower (s : String) : String :=
  String.mk (s.data.map Char.toLower)

/-- Python `str.startswith('.')`: the first character is a dot. -/
def startsWithDot (s : String) : Bool :=
  match s.data with
  | '.' :: _ => true
  | _ => false

/-- Python `str.lstrip('/')`: remove every leading slash. -/
def pyLstripSlash (s : String) : String :=
  String.mk (s.data.dropWhile (fun c => c = '/'))

/-- Python `str.strip('/')`: remove every leading and trailing slash. -/
def pyStripSlash (s : String) : String :=
  String.mk (((s.data.dropWhile (fun c => c = '/')).reverse.dropWhile
    (fun c => c = '/')).reverse)

/-- Python `str.endswith('/')`: the last character is a slash. -/
def endsWithSlash (s : String) : Bool :=
  match s.data.getLast? with
  | some '/' => true
  | _ => false

/-- The index of the last occurrence of `c` in `cs`, if any. -/
def lastIdxOf (c : Char) : List Char → Option Nat
  | [] => none
  | x :: xs =>
    match lastIdxOf c xs with
    | some i => some (i + 1)
    | none => if x = c then some 0 else none

/-- Python `pathlib.PurePath.suffix`: the extension of the final component,
dot included; empty unless the last dot sits strictly inside the name
(so `".gitignore"` and `"foo."` both have suffix `""`). -/
def pySuffix (name : String) : String :=
  match lastIdxOf '.' name.data with
  | some i =>
    if 0 < i ∧ i + 1 < name.data.length then String.mk (name.data.drop i) else ""
  | none => ""

/-! ### Configuration (`Config.__init__` in `monitor.py`).
Only the fields consulted by the filtering, scanning, sorting and routing
logic are modelled; `port`, `host` and `base_folder` feed the HTTP plumbing
and banner printing, which stay outside the embedding. -/

structure Config where
  ignore_folders : List String
  ignore_files : List String
  ignore_extensions : List String
  show_hidden : Bool
  sort_by : String
  sort_reverse : Bool
deriving Repr, DecidableEq

/-- The default configuration literals from `Config.__init__`. -/
def defaultConfig : Config where
  ignore_folders := ["css", "js", "__pycache__", ".git", "node_modules"]
  ignore_files := ["accounts.txt", "manager.py", "isos.html",
    "server.py", "config.json", ".gitignore",
    "README.md", "LICENSE", "index.html", "monitor.py"]
  ignore_extensions := [".pyc", ".log", ".tmp", ".swp"]
  show_hidden := false
  sort_by := "name"
  sort_reverse := false

/-! ### The filter (`FileManager.should_ignore`).
The Python function receives a `Path`; it only reads the base name,
`is_dir()`/`is_file()` and the lowercased suffix.  In the embedding an entry
is either a file or a directory, so `is_file` is the negation of `isDir`. -/

/-- `FileManager.should_ignore`, clause for clause: hidden names first, then
ignored folder names, then ignored file names, then ignored extensions. -/
def should_ignore (cfg : Config) (name : String) (isDir : Bool) : Bool :=
  if cfg.show_hidden = false ∧ startsWithDot name = true then true
  else if isDir = true ∧ name ∈ cfg.ignore_folders then true
  else if isDir = false ∧ name ∈ cfg.ignore_files then true
  else if isDir = false ∧ pyLower (pySuffix name) ∈ cfg.ignore_extensions then true
  else false

/-! ### Filesystem model.
A directory entry is a file (with `stat` metadata) or a directory (whose
children can be enumerated only when it is readable — an unreadable
directory makes `iterdir`/`rglob` raise `PermissionError`).  Timestamps are
modelled as naturals; `datetime.fromtimestamp` is monotone, so orderings by
`modified` agree with orderings by `st_mtime`. -/

inductive FSEntry where
  | file (name : String) (size modified created : Nat)
  | dir (name : String) (modified created : Nat) (readable : Bool)
      (children : List FSEntry)
deriving Repr

/-- The base name of an entry (`Path.name`). -/
def FSEntry.name : FSEntry → String
  | .file n _ _ _ => n
  | .dir n _ _ _ _ => n

/-- `Path.is_dir()`. -/
def FSEntry.isDir : FSEntry → Bool
  | .file _ _ _ _ => false
  | .dir _ _ _ _ _ => true

/-- `Path.stat().st_size` (directories report 0: the scanner stores
`stat.st_size if item.is_file() else 0`). -/
def FSEntry.size : FSEntry → Nat
  | .file _ s _ _ => s
  | .dir _ _ _ _ _ => 0

/-- `Path.stat().st_mtime`. -/
def FSEntry.modified : FSEntry → Nat
  | .file _ _ m _ => m
  | .dir _ m _ _ _ => m

/-- `Path.stat().st_ctime`. -/
def FSEntry.created : FSEntry → Nat
  | .file _ _ _ c => c
  | .dir _ _ c _ _ => c

/-! ### `Path.rglob('*')`, the recursive walk used for folder file counts.
It yields every descendant of a directory; reaching an unreadable directory
raises, which the embedding renders as `Except.error ()`.  The consumer
(`sum(...)`) only counts, so the enumeration order is irrelevant. -/

mutual

/-- All descendants of one entry: none for a file, the recursive contents
for a readable directory, an error for an unreadable one. -/
def rglobEntry : FSEntry → Except Unit (List FSEntry)
  | .file _ _ _ _ => .ok []
  | .dir _ _ _ readable cs => if readable then rglobList cs else .error ()

/-- The entries of a child list together with all their descendants. -/
def rglobList : List FSEntry → Except Unit (List FSEntry)
  | [] => .ok []
  | e :: rest =>
    match rglobEntry e, rglobList rest with
    | .ok sub, .ok tail => .ok (e :: (sub ++ tail))
    | .error u, _ => .error u
    | _, .error u => .error u

end

/-- The count the scanner's generator expression computes over an `rglob`
stream: `sum(1 for f in ... if f.is_file() and not self.should_ignore(f))`. -/
def countVisible (cfg : Config) (ds : List FSEntry) : Nat :=
  (ds.filter (fun f => !f.isDir && !(should_ignore cfg f.name f.isDir))).length

/-- `file_count` for a surviving directory: the `rglob` count, with any
failure of the sub-scan caught by the bare `except:` and replaced by 0. -/
def file_count_of (cfg : Config) (e : FSEntry) : Nat :=
  match rglobEntry e with
  | .ok ds => countVisible cfg ds
  | .error _ => 0

/-! ### Specification-side count for the recursive file-count walk.
The spec describes `fileCountIfDir` as the number of files in the entire
subtree that pass `shouldIgnore`; this pair of functions states that count
by structural recursion, to be compared with the code's `rglob` sum. -/

mutual

/-- Number of descendant files of an entry passing the filter (per the
spec's words: walk the entire subtree, filter each descendant file). -/
def visible_file_count (cfg : Config) : FSEntry → Nat
  | .file _ _ _ _ => 0
  | .dir _ _ _ _ cs => visible_file_count_list cfg cs

/-- Number of files in a forest passing the filter, descendants included. -/
def visible_file_count_list (cfg : Config) : List FSEntry → Nat
  | [] => 0
  | FSEntry.file n _ _ _ :: rest =>
    (if should_ignore cfg n false then 0 else 1) + visible_file_count_list cfg rest
  | FSEntry.dir _ _ _ _ cs :: rest =>
    visible_file_count_list cfg cs + visible_file_count_list cfg rest

end

/-! ### The scan loop of `FileManager.get_directory_listing`. -/

/-- The per-entry record the scanner builds (the `info` dict).  The only
call site scans the base directory itself, so an immediate child's
`relative_to(base)` is its own name.  Files do not get a `file_count`
key; directories do. -/
structure EntryInfo where
  name : String
  path : String
  is_dir : Bool
  size : Nat
  modified : Nat
  created : Nat
  file_count : Option Nat
deriving Repr, DecidableEq

/-- The `items` dict: folders and files in the order they were appended. -/
structure Items where
  folders : List EntryInfo
  files : List EntryInfo
deriving Repr, DecidableEq

/-- The `info` dict built for one surviving child. -/
def entry_info (cfg : Config) : FSEntry → EntryInfo
  | .file n sz m c =>
    { name := n, path := n, is_dir := false, size := sz, modified := m,
      created := c, file_count := none }
  | .dir n m c r cs =>
    { name := n, path := n, is_dir := true, size := 0, modified := m,
      created := c,
      file_count := some (file_count_of cfg (.dir n m c r cs)) }

/-- The scan loop: skip ignored children, append each survivor's `info` to
`folders` or `files` in enumeration order (stated as an order-preserving
partition of the child list). -/
def scan_items (cfg : Config) (children : List FSEntry) : Items where
  folders := (children.filter
    (fun e => !(should_ignore cfg e.name e.isDir) && e.isDir)).map (entry_info cfg)
  files := (children.filter
    (fun e => !(should_ignore cfg e.name e.isDir) && !e.isDir)).map (entry_info cfg)

/-! ### Sorting (`list.sort(key=..., reverse=...)`).
Python's sort is stable; a stable sort by a total preorder is unique, so it
is modelled by insertion sort on the corresponding comparison (`key a ≤
key b` ascending; with `reverse=True` the comparison is flipped and
stability is kept, i.e. `key b ≤ key a`).  Comparisons are boolean
functions so that every concrete listing evaluates inside the kernel. -/

/-- Lexicographic comparison of character lists by code point: the model of
Python's string `<=`. -/
def charListLe : List Char → List Char → Bool
  | [], _ => true
  | _ :: _, [] => false
  | a :: as, b :: bs => if a < b then true else if b < a then false else charListLe as bs

/-- Python string comparison `a <= b` (code-point lexicographic). -/
def strLe (a b : String) : Bool :=
  charListLe a.data b.data

/-- The proposition `le a b = true`, the ascending sort relation. -/
def leRel {α : Type} (le : α → α → Bool) (a b : α) : Prop :=
  le a b = true

/-- The flipped relation used for `reverse=True`. -/
def geRel {α : Type} (le : α → α → Bool) (a b : α) : Prop :=
  le b a = true

instance {α : Type} (le : α → α → Bool) : DecidableRel (leRel le) :=
  fun a b => inferInstanceAs (Decidable (le a b = true))

instance {α : Type} (le : α → α → Bool) : DecidableRel (geRel le) :=
  fun a b => inferInstanceAs (Decidable (le b a = true))

/-- `l.sort(key=...)` with comparison `le` on the keyed values, flipped
when `reverse` is set; stable in both directions. -/
def pySortKey {α : Type} (le : α → α → Bool) (reverse : Bool)
    (l : List α) : List α :=
  if reverse then l.insertionSort (geRel le) else l.insertionSort (leRel le)

/-- The key comparison for `sort_by == 'name'`: lowercased names. -/
def nameLe (a b : EntryInfo) : Bool :=
  strLe (pyLower a.name) (pyLower b.name)

/-- The key comparison for `sort_by == 'size'`. -/
def sizeLe (a b : EntryInfo) : Bool :=
  a.size ≤ b.size

/-- The key comparison for `sort_by == 'date'` (`modified` timestamps). -/
def dateLe (a b : EntryInfo) : Bool :=
  a.modified ≤ b.modified

/-- The sort section of `get_directory_listing`: by lowercased name (both
lists), by size (files only), by modification time (both lists), or — for
any other `sort_by` value — no sorting at all. -/
def sort_items (cfg : Config) (it : Items) : Items :=
  if cfg.sort_by = "name" then
    { folders := pySortKey nameLe cfg.sort_reverse it.folders,
      files := pySortKey nameLe cfg.sort_reverse it.files }
  else if cfg.sort_by = "size" then
    { folders := it.folders,
      files := pySortKey sizeLe cfg.sort_reverse it.files }
  else if cfg.sort_by = "date" then
    { folders := pySortKey dateLe cfg.sort_reverse it.folders,
      files := pySortKey dateLe cfg.sort_reverse it.files }
  else it

/-! ### `FileManager.get_directory_listing` and the request router. -/

/-- The Python exceptions relevant to the modelled paths.  `PermissionError`
is caught inside `get_directory_listing`; `FileNotFoundError` is not. -/
inductive PyError where
  | fileNotFound
deriving Repr, DecidableEq

instance {ε α : Type} [DecidableEq ε] [DecidableEq α] : DecidableEq (Except ε α) :=
  fun x y =>
    match x, y with
    | .ok a, .ok b =>
      if h : a = b then .isTrue (by rw [h]) else .isFalse (by simp [h])
    | .error a, .error b =>
      if h : a = b then .isTrue (by rw [h]) else .isFalse (by simp [h])
    | .ok _, .error _ => .isFalse (by simp)
    | .error _, .ok _ => .isFalse (by simp)

/-- The state of the directory the only call site scans (the served base
folder): it may have vanished, or it is a directory that is or is not
readable. -/
inductive ScanTarget where
  | missing
  | dir (readable : Bool) (children : List FSEntry)

/-- `FileManager.get_directory_listing()`: iterate the children, filter,
collect metadata, then sort — all inside `try: ... except PermissionError`,
so an unreadable directory degrades to the empty `items` dict (after the
warning print), while a missing one raises `FileNotFoundError` uncaught. -/
def get_directory_listing (cfg : Config) (t : ScanTarget) : Except PyError Items :=
  match t with
  | .missing => .error .fileNotFound
  | .dir false _ => .ok { folders := [], files := [] }
  | .dir true children => .ok (sort_items cfg (scan_items cfg children))

/-- The three terminal outcomes of `ArchWayHTTPHandler.do_GET`: the 403
error, the generated listing page (with the items and `path.strip('/')`
handed to the HTML generator), or delegation to the superclass streamer. -/
inductive Outcome where
  | forbidden
  | renderListing (items : Items) (currentPath : String)
  | streamFile
deriving Repr, DecidableEq

/-- `ArchWayHTTPHandler.do_GET` on raw request path `path`, with the served
base folder in state `t`: block exact ignored file names first, render the
root listing for `/` or any path ending in `/`, otherwise stream. -/
def do_GET (cfg : Config) (t : ScanTarget) (path : String) :
    Except PyError Outcome :=
  if pyLstripSlash path ∈ cfg.ignore_files then .ok .forbidden
  else if path = "/" ∨ endsWithSlash path = true then
    match get_directory_listing cfg t with
    | .ok items => .ok (.renderListing items (pyStripSlash path))
    | .error e => .error e
  else .ok .streamFile

/-! ### Concrete inputs used by witnesses and counterexamples. -/

/-- Children of the example subdirectory `sub`. -/
def exSubChildren : List FSEntry :=
  [.file "a.txt" 5 7 9]

/-- Children of an example served root holding only `sub/`. -/
def exRootChildren : List FSEntry :=
  [.dir "sub" 1 2 true exSubChildren]

/-- An example folder with three visible files and two ignored ones
(an ignored file name and an ignored extension). -/
def exDocs : FSEntry :=
  .dir "docs" 3 4 true
    [.file "a.txt" 1 0 0, .file "config.json" 2 0 0, .file "b.txt" 3 0 0,
     .file "notes.log" 4 0 0, .file "c.txt" 5 0 0]

/-- An example folder whose recursive walk hits an unreadable nested
directory. -/
def exData : FSEntry :=
  .dir "data" 5 6 true [.file "top.txt" 1 0 0, .dir "secret" 0 0 false []]

/-- The descendants `rglob` yields for `exDocs`. -/
def exDocsDescendants : List FSEntry :=
  [.file "a.txt" 1 0 0, .file "config.json" 2 0 0, .file "b.txt" 3 0 0,
   .file "notes.log" 4 0 0, .file "c.txt" 5 0 0]

/-- Python `str.startswith('/')`. -/
def startsWithSlash (s : String) : Bool :=
  match s.data with
  | '/' :: _ => true
  | _ => false

/-- Shorthand for a scanned file record with the given name and size. -/
def mkFileInfo (n : String) (sz : Nat) : EntryInfo where
  name := n
  path := n
  is_dir := false
  size := sz
  modified := 0
  created := 0
  file_count := none

/-- Shorthand for a scanned folder record with the given name. -/
def mkDirInfo (n : String) : EntryInfo where
  name := n
  path := n
  is_dir := true
  size := 0
  modified := 0
  created := 0
  file_count := some 0

end ArchWay

namespace ArchWay

/-! ### Generic facts about the stable-sort model. -/

theorem pySortKey_perm {α : Type} (le : α → α → Bool) (rev : Bool) (l : List α) :
    List.Perm (pySortKey le rev l) l := by
  cases rev <;> simp only [pySortKey, Bool.false_eq_true, if_false, if_true] <;>
    exact List.perm_insertionSort _ l

theorem sorted_insertionSort_of {α : Type} (r : α → α → Prop) [DecidableRel r]
    (htot : ∀ a b, r a b ∨ r b a) (htrans : ∀ a b c, r a b → r b c → r a c)
    (l : List α) : List.Sorted r (l.insertionSort r) := by
  haveI : IsTotal α r := ⟨htot⟩
  haveI : IsTrans α r := ⟨fun a b c => htrans a b c⟩
  exact List.sorted_insertionSort r l

theorem filter_insertionSort {α : Type} (r : α → α → Prop) [DecidableRel r]
    (p : α → Bool) (hp : ∀ a b, p a = true → p b = true → r a b) (l : List α) :
    (l.insertionSort r).filter p = l.filter p := by
  have hc : (l.filter p).Pairwise r := by
    refine List.pairwise_iff_forall_sublist.mpr ?_
    intro a b hs
    have ha : a ∈ l.filter p := hs.subset (by simp)
    have hb : b ∈ l.filter p := hs.subset (by simp)
    exact hp a b (List.of_mem_filter ha) (List.of_mem_filter hb)
  have hsub : List.Sublist (l.filter p) (l.insertionSort r) :=
    List.sublist_insertionSort hc (List.filter_sublist l)
  have hself : (l.filter p).filter p = l.filter p :=
    List.filter_eq_self.mpr fun a ha => List.of_mem_filter ha
  have hsub2 : List.Sublist (l.filter p) ((l.insertionSort r).filter p) := by
    have h := hsub.filter p
    rwa [hself] at h
  have hperm : List.Perm ((l.insertionSort r).filter p) (l.filter p) :=
    (List.perm_insertionSort r l).filter p
  exact (hsub2.eq_of_length hperm.length_eq.symm).symm

theorem pySortKey_sorted_asc {α : Type} (le : α → α → Bool)
    (htot : ∀ a b, le a b = true ∨ le b a = true)
    (htrans : ∀ a b c, le a b = true → le b c = true → le a c = true)
    (l : List α) : List.Sorted (leRel le) (pySortKey le false l) := by
  simpa [pySortKey] using
    sorted_insertionSort_of (leRel le) htot (fun a b c => htrans a b c) l

theorem pySortKey_sorted_desc {α : Type} (le : α → α → Bool)
    (htot : ∀ a b, le a b = true ∨ le b a = true)
    (htrans : ∀ a b c, le a b = true → le b c = true → le a c = true)
    (l : List α) : List.Sorted (geRel le) (pySortKey le true l) := by
  simpa [pySortKey] using
    sorted_insertionSort_of (geRel le) (fun a b => (htot b a))
      (fun a b c hab hbc => htrans c b a hbc hab) l

theorem pySortKey_filter {α : Type} (le : α → α → Bool) (rev : Bool)
    (p : α → Bool) (hp : ∀ a b, p a = true → p b = true → le a b = true)
    (l : List α) : (pySortKey le rev l).filter p = l.filter p := by
  cases rev <;> simp only [pySortKey, Bool.false_eq_true, if_false, if_true]
  · exact filter_insertionSort (leRel le) p hp l
  · exact filter_insertionSort (geRel le) p (fun a b ha hb => hp b a hb ha) l

/-! ### The string comparison is a total preorder. -/

theorem charListLe_refl : ∀ as : List Char, charListLe as as = true
  | [] => rfl
  | a :: as => by simp [charListLe, lt_irrefl, charListLe_refl as]

theorem charListLe_cons_iff {a b : Char} {as bs : List Char} :
    charListLe (a :: as) (b :: bs) = true ↔
      a < b ∨ (a = b ∧ charListLe as bs = true) := by
  by_cases hab : a < b
  · constructor
    · intro _
      exact .inl hab
    · intro _
      simp [charListLe, hab]
  · by_cases hba : b < a
    · constructor
      · intro h
        simp [charListLe, hab, hba] at h
      · rintro (h | ⟨h, _⟩)
        · exact absurd h hab
        · exact absurd (h ▸ hba) (lt_irrefl _)
    · have heq : a = b := le_antisymm (not_lt.mp hba) (not_lt.mp hab)
      simp [charListLe, hab, hba, heq]

theorem charListLe_total : ∀ as bs : List Char,
    charListLe as bs = true ∨ charListLe bs as = true
  | [], _ => .inl rfl
  | _ :: _, [] => .inr rfl
  | a :: as, b :: bs => by
    rcases lt_trichotomy a b with h | h | h
    · exact .inl (charListLe_cons_iff.mpr (.inl h))
    · rcases charListLe_total as bs with ih | ih
      · exact .inl (charListLe_cons_iff.mpr (.inr ⟨h, ih⟩))
      · exact .inr (charListLe_cons_iff.mpr (.inr ⟨h.symm, ih⟩))
    · exact .inr (charListLe_cons_iff.mpr (.inl h))

theorem charListLe_trans : ∀ as bs cs : List Char,
    charListLe as bs = true → charListLe bs cs = true → charListLe as cs = true
  | [], _, _, _, _ => rfl
  | _ :: _, [], _, h, _ => by simp [charListLe] at h
  | _ :: _, _ :: _, [], _, h => by simp [charListLe] at h
  | a :: as, b :: bs, c :: cs, h1, h2 => by
    rcases charListLe_cons_iff.mp h1 with hab | ⟨hab, h1'⟩ <;>
      rcases charListLe_cons_iff.mp h2 with hbc | ⟨hbc, h2'⟩
    · exact charListLe_cons_iff.mpr (.inl (lt_trans hab hbc))
    · exact charListLe_cons_iff.mpr (.inl (hbc ▸ hab))
    · exact charListLe_cons_iff.mpr (.inl (hab ▸ hbc))
    · exact charListLe_cons_iff.mpr
        (.inr ⟨hab.trans hbc, charListLe_trans as bs cs h1' h2'⟩)

theorem strLe_refl (s : String) : strLe s s = true :=
  charListLe_refl s.data

theorem strLe_total (a b : String) : strLe a b = true ∨ strLe b a = true :=
  charListLe_total a.data b.data

theorem strLe_trans (a b c : String) :
    strLe a b = true → strLe b c = true → strLe a c = true :=
  charListLe_trans a.data b.data c.data

theorem nameLe_total (a b : EntryInfo) : nameLe a b = true ∨ nameLe b a = true :=
  strLe_total _ _

theorem nameLe_trans (a b c : EntryInfo) :
    nameLe a b = true → nameLe b c = true → nameLe a c = true :=
  strLe_trans _ _ _

theorem sizeLe_total (a b : EntryInfo) : sizeLe a b = true ∨ sizeLe b a = true := by
  simp only [sizeLe, decide_eq_true_eq]
  exact Nat.le_total a.size b.size

theorem sizeLe_trans (a b c : EntryInfo) :
    sizeLe a b = true → sizeLe b c = true → sizeLe a c = true := by
  simp only [sizeLe, decide_eq_true_eq]
  exact Nat.le_trans

theorem dateLe_total (a b : EntryInfo) : dateLe a b = true ∨ dateLe b a = true := by
  simp only [dateLe, decide_eq_true_eq]
  exact Nat.le_total a.modified b.modified

theorem dateLe_trans (a b c : EntryInfo) :
    dateLe a b = true → dateLe b c = true → dateLe a c = true := by
  simp only [dateLe, decide_eq_true_eq]
  exact Nat.le_trans

/-! ### Path-normalisation facts used by the router claims. -/

theorem pyLstripSlash_slash_append (name suffix : String)
    (hne : name ≠ "") (hsl : startsWithSlash name = false) :
    pyLstripSlash ("/" ++ name ++ suffix) = name ++ suffix := by
  obtain ⟨c, cs, hdata⟩ : ∃ c cs, name.data = c :: cs := by
    cases hd : name.data with
    | nil =>
      exact absurd (show name = "" from congrArg String.mk hd) hne
    | cons c cs => exact ⟨c, cs, rfl⟩
  have hc : c ≠ '/' := by
    intro h
    rw [startsWithSlash, hdata, h] at hsl
    exact Bool.true_eq_false.mp hsl
  show String.mk ((("/" ++ name ++ suffix).data).dropWhile (fun ch => ch = '/'))
      = name ++ suffix
  rw [String.data_append, String.data_append, hdata]
  show String.mk (List.dropWhile (fun ch => ch = '/')
      (('/' :: []) ++ ((c :: cs) ++ suffix.data))) = name ++ suffix
  rw [List.singleton_append, List.dropWhile_cons]
  simp only [decide_True, if_true, List.cons_append, List.dropWhile_cons,
    decide_eq_true_eq, hc, if_false]
  rw [← List.cons_append, ← hdata, ← String.data_append]

theorem endsWithSlash_slash_append (name suffix : String) (hne : suffix ≠ "") :
    endsWithSlash ("/" ++ name ++ suffix) = endsWithSlash suffix := by
  have hd : suffix.data ≠ [] := by
    intro h
    exact hne (congrArg String.mk h)
  rw [endsWithSlash, endsWithSlash, String.data_append,
    List.getLast?_append_of_ne_nil _ hd]

theorem slash_append_ne_root (name suffix : String) (hne : name ≠ "") :
    ("/" ++ name ++ suffix) ≠ "/" := by
  intro h
  have hdata := congrArg String.data h
  rw [String.data_append, String.data_append] at hdata
  have hroot : ("/" : String).data = ['/'] := rfl
  rw [hroot, List.append_assoc] at hdata
  have htail : name.data ++ suffix.data = [] := by
    simpa using hdata
  have hn : name.data = [] := (List.append_eq_nil.mp htail).1
  exact hne (congrArg String.mk hn)

/-! ### The `rglob` count agrees with the recursive specification count. -/

theorem countVisible_nil (cfg : Config) : countVisible cfg [] = 0 :=
  rfl

theorem countVisible_cons (cfg : Config) (e : FSEntry) (l : List FSEntry) :
    countVisible cfg (e :: l) =
      (if (!e.isDir && !(should_ignore cfg e.name e.isDir)) = true then 1 else 0)
        + countVisible cfg l := by
  simp only [countVisible, List.filter_cons]
  split <;> simp [Nat.add_comm]

theorem countVisible_append (cfg : Config) (l₁ l₂ : List FSEntry) :
    countVisible cfg (l₁ ++ l₂) = countVisible cfg l₁ + countVisible cfg l₂ := by
  simp [countVisible, List.filter_append]

mutual

theorem rglob_entry_count (cfg : Config) (e : FSEntry) (ds : List FSEntry)
    (h : rglobEntry e = Except.ok ds) :
    countVisible cfg ds = visible_file_count cfg e := by
  cases e with
  | file n sz m c =>
    simp only [rglobEntry, Except.ok.injEq] at h
    subst h
    simp [countVisible_nil, visible_file_count]
  | dir n m c r cs =>
    cases r with
    | false => simp [rglobEntry] at h
    | true =>
      simp only [rglobEntry, if_true] at h
      rw [visible_file_count]
      exact rglob_list_count cfg cs ds h

theorem rglob_list_count (cfg : Config) (cs : List FSEntry) (ds : List FSEntry)
    (h : rglobList cs = Except.ok ds) :
    countVisible cfg ds = visible_file_count_list cfg cs := by
  cases cs with
  | nil =>
    simp only [rglobList, Except.ok.injEq] at h
    subst h
    simp [visible_file_count_list, countVisible_nil]
  | cons e rest =>
    cases he : rglobEntry e with
    | error u => simp [rglobList, he] at h
    | ok sub =>
      cases ht : rglobList rest with
      | error u => simp [rglobList, he, ht] at h
      | ok tail =>
        have hsub := rglob_entry_count cfg e sub he
        have htail := rglob_list_count cfg rest tail ht
        simp only [rglobList, he, ht, Except.ok.injEq] at h
        subst h
        rw [countVisible_cons, countVisible_append]
        cases e with
        | file n sz m c =>
          have : sub = [] := by
            simp only [rglobEntry, Except.ok.injEq] at he
            exact he.symm
          subst this
          rw [visible_file_count_list]
          simp only [FSEntry.isDir, FSEntry.name, Bool.not_false, Bool.true_and,
            countVisible_nil, htail]
          by_cases hig : should_ignore cfg n false <;> simp [hig]
        | dir n' m' c' r' cs' =>
          rw [visible_file_count_list]
          simp only [FSEntry.isDir, Bool.not_true, Bool.false_and,
            Bool.false_eq_true, if_false, Nat.zero_add, htail]
          rw [hsub]
          simp [visible_file_count]

end

end ArchWay

namespace ArchWay

/-! ## The claims. -/

/-- C2: a GET request resolves to the Forbidden (403) outcome exactly when
the raw path with its leading slashes stripped is literally one of the
`ignore_files` entries; the check runs before the listing and streaming
branches and involves no other configuration field (in particular not the
folder-ignore rules). -/
theorem C2_forbidden_iff (cfg : Config) (t : ScanTarget) (path : String) :
    do_GET cfg t path = .ok .forbidden ↔ pyLstripSlash path ∈ cfg.ignore_files := by
  unfold do_GET
  split_ifs with h1 h2
  · simpa using h1
  · cases hg : get_directory_listing cfg t with
    | ok it => simp [hg, h1]
    | error e => simp [hg, h1]
  · simp [h1]

/-- C3: `should_ignore` holds exactly when the name is hidden while
`show_hidden` is off, or the entry is a directory with an ignored folder
name, or a file with an ignored file name, or a file whose lowercased
extension is ignored.  Directories are never hit by the file-name or
extension rules, name matching is literal, and only the entry's extension
is lowercased before the extension comparison. -/
theorem C3_should_ignore_iff (cfg : Config) (name : String) (isDir : Bool) :
    should_ignore cfg name isDir = true ↔
      (startsWithDot name = true ∧ cfg.show_hidden = false) ∨
      (isDir = true ∧ name ∈ cfg.ignore_folders) ∨
      (isDir = false ∧ name ∈ cfg.ignore_files) ∨
      (isDir = false ∧ pyLower (pySuffix name) ∈ cfg.ignore_extensions) := by
  cases isDir <;> cases hsh : cfg.show_hidden <;>
    unfold should_ignore <;>
    split_ifs with h1 h2 h3 h4 <;> simp_all

/-- C5 (amended): if the served directory is unreadable the scan degrades
to the empty listing (after the logged warning) because `PermissionError`
is caught; if it is missing, `FileNotFoundError` propagates out of the
scan and the handler produces no response of its own (no 404 from this
code). -/
theorem C5_top_level_failure_amended (cfg : Config) (children : List FSEntry) :
    get_directory_listing cfg (.dir false children) = .ok { folders := [], files := [] } ∧
    get_directory_listing cfg .missing = .error .fileNotFound :=
  ⟨rfl, rfl⟩

/-- C5 counterexample: for a vanished scan target the request does not
degrade to an empty listing and no 403/404/200 outcome is produced — the
`FileNotFoundError` escapes `do_GET`, contradicting the claim that a
not-found target is surfaced to the client as a 404 by this logic. -/
theorem C5_missing_counterexample :
    do_GET defaultConfig ScanTarget.missing "/" = .error .fileNotFound ∧
    get_directory_listing defaultConfig ScanTarget.missing ≠
      .ok { folders := [], files := [] } := by
  constructor
  · rfl
  · decide

/-- C10: any `sort_by` value outside name/size/date leaves both sequences
exactly as the scan enumerated them and raises nothing (the if-chain simply
falls through). -/
theorem C10_unknown_sort_identity (cfg : Config) (children : List FSEntry)
    (h1 : cfg.sort_by ≠ "name") (h2 : cfg.sort_by ≠ "size")
    (h3 : cfg.sort_by ≠ "date") :
    get_directory_listing cfg (.dir true children) = .ok (scan_items cfg children) := by
  simp [get_directory_listing, sort_items, h1, h2, h3]

/-- C10 witness: a misconfigured `sort_by` of `"weird"` returns the raw
enumeration order of a deliberately unsorted child list. -/
theorem C10_unknown_sort_identity_witness :
    (({ defaultConfig with sort_by := "weird" } : Config).sort_by ≠ "name" ∧
      ({ defaultConfig with sort_by := "weird" } : Config).sort_by ≠ "size" ∧
      ({ defaultConfig with sort_by := "weird" } : Config).sort_by ≠ "date") ∧
    get_directory_listing { defaultConfig with sort_by := "weird" }
        (.dir true [.file "b.txt" 2 9 0, .file "a.txt" 1 3 0]) =
      .ok (scan_items { defaultConfig with sort_by := "weird" }
        [.file "b.txt" 2 9 0, .file "a.txt" 1 3 0]) ∧
    (scan_items { defaultConfig with sort_by := "weird" }
        [.file "b.txt" 2 9 0, .file "a.txt" 1 3 0]).files.map (fun e => e.name) =
      ["b.txt", "a.txt"] :=
  ⟨⟨by decide, by decide, by decide⟩,
    C10_unknown_sort_identity { defaultConfig with sort_by := "weird" }
      [.file "b.txt" 2 9 0, .file "a.txt" 1 3 0] (by decide) (by decide) (by decide),
    by decide⟩

/-- C1 (amended): every GET whose raw path is `/` or ends in `/` (and does
not first hit the 403 check) renders a listing, but the listing handed to
the presentation layer is always the scan-and-sort of the served root
directory — `get_directory_listing()` is called with no argument — no
matter which subdirectory the path names; only the relative-path string
passed along (`path.strip('/')`) reflects the request. -/
theorem C1_render_listing_amended (cfg : Config) (children : List FSEntry)
    (path : String) (hforb : pyLstripSlash path ∉ cfg.ignore_files)
    (hslash : path = "/" ∨ endsWithSlash path = true) :
    do_GET cfg (.dir true children) path =
      .ok (.renderListing (sort_items cfg (scan_items cfg children))
        (pyStripSlash path)) := by
  simp [do_GET, hforb, hslash, get_directory_listing]

/-- C1 witness: requesting `/sub/` over the example root still renders the
root's own listing with relative path `sub`. -/
theorem C1_render_listing_amended_witness :
    (pyLstripSlash "/sub/" ∉ defaultConfig.ignore_files ∧
      endsWithSlash "/sub/" = true) ∧
    do_GET defaultConfig (.dir true exRootChildren) "/sub/" =
      .ok (.renderListing
        (sort_items defaultConfig (scan_items defaultConfig exRootChildren))
        (pyStripSlash "/sub/")) :=
  ⟨⟨by decide, by decide⟩,
    C1_render_listing_amended defaultConfig exRootChildren "/sub/" (by decide)
      (Or.inr (by decide))⟩

/-- C1 counterexample: for `GET /sub/` the rendered listing is the root's
listing (folder `sub`, no files), which differs from the listing obtained
by scanning the subdirectory `sub` itself (no folders, file `a.txt`), so
the claim that the scanned directory is the named subdirectory is false. -/
theorem C1_root_counterexample :
    do_GET defaultConfig (.dir true exRootChildren) "/sub/" =
      .ok (.renderListing
        (sort_items defaultConfig (scan_items defaultConfig exRootChildren)) "sub") ∧
    sort_items defaultConfig (scan_items defaultConfig exRootChildren) ≠
      sort_items defaultConfig (scan_items defaultConfig exSubChildren) := by
  constructor
  · decide
  · decide

/-- C7: with a Size key the folders sequence is returned exactly as it
came (frame condition), while the files sequence is a permutation of the
input ordered ascending by `size` — descending instead when
`sort_reverse` is set. -/
theorem C7_size_sort_frame (cfg : Config) (it : Items) (h : cfg.sort_by = "size") :
    (sort_items cfg it).folders = it.folders ∧
    List.Perm (sort_items cfg it).files it.files ∧
    (cfg.sort_reverse = false →
      List.Sorted (fun a b : EntryInfo => a.size ≤ b.size) (sort_items cfg it).files) ∧
    (cfg.sort_reverse = true →
      List.Sorted (fun a b : EntryInfo => b.size ≤ a.size) (sort_items cfg it).files) := by
  have hs : (sort_items cfg it).folders = it.folders ∧
      (sort_items cfg it).files = pySortKey sizeLe cfg.sort_reverse it.files := by
    rw [sort_items, h]
    exact ⟨rfl, rfl⟩
  refine ⟨hs.1, ?_, ?_, ?_⟩
  · rw [hs.2]
    exact pySortKey_perm sizeLe cfg.sort_reverse it.files
  · intro hrev
    rw [hs.2, hrev]
    exact (pySortKey_sorted_asc sizeLe sizeLe_total sizeLe_trans it.files).imp
      (fun hab => by simpa [leRel, sizeLe] using hab)
  · intro hrev
    rw [hs.2, hrev]
    exact (pySortKey_sorted_desc sizeLe sizeLe_total sizeLe_trans it.files).imp
      (fun hab => by simpa [geRel, sizeLe] using hab)

/-- C7 witness: folders `[A, B]` with file sizes `[300, 100, 200]` sort to
files `[100, 200, 300]` while the folders stay `[A, B]`. -/
theorem C7_size_sort_frame_witness :
    ({ defaultConfig with sort_by := "size" } : Config).sort_by = "size" ∧
    (sort_items { defaultConfig with sort_by := "size" }
        { folders := [mkDirInfo "A", mkDirInfo "B"],
          files := [mkFileInfo "f1" 300, mkFileInfo "f2" 100, mkFileInfo "f3" 200] }).folders =
      [mkDirInfo "A", mkDirInfo "B"] ∧
    (sort_items { defaultConfig with sort_by := "size" }
        { folders := [mkDirInfo "A", mkDirInfo "B"],
          files := [mkFileInfo "f1" 300, mkFileInfo "f2" 100, mkFileInfo "f3" 200] }).files.map
      (fun e => e.size) = [100, 200, 300] :=
  ⟨rfl,
    (C7_size_sort_frame { defaultConfig with sort_by := "size" }
      { folders := [mkDirInfo "A", mkDirInfo "B"],
        files := [mkFileInfo "f1" 300, mkFileInfo "f2" 100, mkFileInfo "f3" 200] }
      rfl).1,
    by decide⟩

/-- C8: with a Name key both folders and files are permuted into an order
sorted by the comparison of lowercased names (`leRel nameLe`, flipped when
`sort_reverse` is set), and the sort is stable: restricting either output
to the entries with any one fixed lowercased name returns exactly the
input's entries with that name, in their original enumeration order. -/
theorem C8_name_sort_stable (cfg : Config) (it : Items) (h : cfg.sort_by = "name") :
    List.Perm (sort_items cfg it).folders it.folders ∧
    List.Perm (sort_items cfg it).files it.files ∧
    (cfg.sort_reverse = false →
      List.Sorted (leRel nameLe) (sort_items cfg it).folders ∧
      List.Sorted (leRel nameLe) (sort_items cfg it).files) ∧
    (cfg.sort_reverse = true →
      List.Sorted (geRel nameLe) (sort_items cfg it).folders ∧
      List.Sorted (geRel nameLe) (sort_items cfg it).files) ∧
    (∀ s : String,
      (sort_items cfg it).folders.filter (fun e => pyLower e.name == s) =
        it.folders.filter (fun e => pyLower e.name == s) ∧
      (sort_items cfg it).files.filter (fun e => pyLower e.name == s) =
        it.files.filter (fun e => pyLower e.name == s)) := by
  have hs : (sort_items cfg it).folders = pySortKey nameLe cfg.sort_reverse it.folders ∧
      (sort_items cfg it).files = pySortKey nameLe cfg.sort_reverse it.files := by
    rw [sort_items, h]
    exact ⟨rfl, rfl⟩
  have hp : ∀ s : String, ∀ a b : EntryInfo,
      (pyLower a.name == s) = true → (pyLower b.name == s) = true →
      nameLe a b = true := by
    intro s a b ha hb
    have ha' : pyLower a.name = s := eq_of_beq ha
    have hb' : pyLower b.name = s := eq_of_beq hb
    rw [nameLe, ha', hb']
    exact strLe_refl s
  refine ⟨?_, ?_, ?_, ?_, ?_⟩
  · rw [hs.1]
    exact pySortKey_perm nameLe cfg.sort_reverse it.folders
  · rw [hs.2]
    exact pySortKey_perm nameLe cfg.sort_reverse it.files
  · intro hrev
    rw [hs.1, hs.2, hrev]
    exact ⟨pySortKey_sorted_asc nameLe nameLe_total nameLe_trans it.folders,
      pySortKey_sorted_asc nameLe nameLe_total nameLe_trans it.files⟩
  · intro hrev
    rw [hs.1, hs.2, hrev]
    exact ⟨pySortKey_sorted_desc nameLe nameLe_total nameLe_trans it.folders,
      pySortKey_sorted_desc nameLe nameLe_total nameLe_trans it.files⟩
  · intro s
    rw [hs.1, hs.2]
    exact ⟨pySortKey_filter nameLe cfg.sort_reverse _ (hp s) it.folders,
      pySortKey_filter nameLe cfg.sort_reverse _ (hp s) it.files⟩

/-- C8 witness: file names `["Banana", "apple", "Cherry"]` sort ascending,
case-insensitively, to `["apple", "Banana", "Cherry"]`. -/
theorem C8_name_sort_stable_witness :
    defaultConfig.sort_by = "name" ∧
    List.Perm (sort_items defaultConfig
      { folders := [],
        files := [mkFileInfo "Banana" 1, mkFileInfo "apple" 2,
          mkFileInfo "Cherry" 3] }).files
      [mkFileInfo "Banana" 1, mkFileInfo "apple" 2, mkFileInfo "Cherry" 3] ∧
    (sort_items defaultConfig
      { folders := [],
        files := [mkFileInfo "Banana" 1, mkFileInfo "apple" 2,
          mkFileInfo "Cherry" 3] }).files.map (fun e => e.name) =
      ["apple", "Banana", "Cherry"] :=
  ⟨rfl,
    (C8_name_sort_stable defaultConfig
      { folders := [],
        files := [mkFileInfo "Banana" 1, mkFileInfo "apple" 2,
          mkFileInfo "Cherry" 3] } rfl).2.1,
    by decide⟩

/-- C9 (amended): the 403 comparison is an exact, opaque string match on
the whole stripped path, so an ignored file name followed by a non-empty
suffix not ending in `/` (query strings included) streams rather than
being blocked — provided the concatenated string is not itself an
`ignore_files` entry (when it is, the exact match fires and the request is
still forbidden). -/
theorem C9_opaque_match_amended (cfg : Config) (t : ScanTarget)
    (name suffix : String) (_hmem : name ∈ cfg.ignore_files)
    (hne : name ≠ "") (hsl : startsWithSlash name = false)
    (hsufne : suffix ≠ "") (hsufsl : endsWithSlash suffix = false)
    (hfull : name ++ suffix ∉ cfg.ignore_files) :
    do_GET cfg t ("/" ++ name ++ suffix) = .ok .streamFile := by
  have hstrip := pyLstripSlash_slash_append name suffix hne hsl
  have hroot := slash_append_ne_root name suffix hne
  have hend : endsWithSlash ("/" ++ name ++ suffix) = false := by
    rw [endsWithSlash_slash_append _ _ hsufne, hsufsl]
  simp [do_GET, hstrip, hfull, hroot, hend]

/-- C9 witness: `GET /config.json?download=1` streams even though
`config.json` alone is forbidden. -/
theorem C9_opaque_match_amended_witness :
    ("config.json" ∈ defaultConfig.ignore_files ∧
      ("?download=1" : String) ≠ "" ∧ endsWithSlash "?download=1" = false ∧
      "config.json" ++ "?download=1" ∉ defaultConfig.ignore_files) ∧
    do_GET defaultConfig (.dir true []) ("/" ++ "config.json" ++ "?download=1") =
      .ok .streamFile :=
  ⟨⟨by decide, by decide, by decide, by decide⟩,
    C9_opaque_match_amended defaultConfig (.dir true []) "config.json" "?download=1"
      (by decide) (by decide) (by decide) (by decide) (by decide) (by decide)⟩

/-- C9 counterexample: with `ignore_files = ["a", "ab"]`, the path `/ab`
consists of the ignored name `a` plus the non-empty suffix `b` (which does
not end in `/`), yet the outcome is Forbidden, not StreamFile: the claim's
universal statement fails when the concatenation itself matches another
ignored name. -/
theorem C9_prefix_counterexample :
    (("/" ++ "a" ++ "b" : String) = "/ab" ∧
      "a" ∈ ({ defaultConfig with ignore_files := ["a", "ab"] } : Config).ignore_files ∧
      ("b" : String) ≠ "" ∧ endsWithSlash "b" = false) ∧
    do_GET { defaultConfig with ignore_files := ["a", "ab"] } (.dir true []) "/ab" =
      .ok .forbidden ∧
    do_GET { defaultConfig with ignore_files := ["a", "ab"] } (.dir true []) "/ab" ≠
      .ok .streamFile := by
  refine ⟨⟨by decide, by decide, by decide, by decide⟩, by decide, by decide⟩

/-- C4: for every surviving directory entry of a scan whose recursive walk
succeeds, the recorded `file_count` equals the specification's recursive
count of subtree files passing `should_ignore` (each descendant file is
individually filtered; the walk does not prune at ignored or hidden
subdirectories, so their files are counted too when they pass). -/
theorem C4_file_count_spec (cfg : Config) (children : List FSEntry)
    (e : FSEntry) (ds : List FSEntry) (hmem : e ∈ children)
    (hdir : e.isDir = true)
    (hkeep : should_ignore cfg e.name e.isDir = false)
    (hok : rglobEntry e = Except.ok ds) :
    entry_info cfg e ∈ (scan_items cfg children).folders ∧
    (entry_info cfg e).file_count = some (visible_file_count cfg e) := by
  rw [hdir] at hkeep
  constructor
  · exact List.mem_map_of_mem _ (List.mem_filter.mpr ⟨hmem, by simp [hkeep, hdir]⟩)
  · cases e with
    | file n sz m c => simp [FSEntry.isDir] at hdir
    | dir n m c r cs =>
      simp only [entry_info, Option.some.injEq]
      rw [file_count_of, hok]
      exact rglob_entry_count cfg _ ds hok

/-- C4 witness: the folder `docs` holds three visible files and two
ignored ones (`config.json` by name, `notes.log` by extension); its
recorded count and the specification count are both 3. -/
theorem C4_file_count_spec_witness :
    (exDocs ∈ [exDocs] ∧ exDocs.isDir = true ∧
      should_ignore defaultConfig exDocs.name exDocs.isDir = false ∧
      rglobEntry exDocs = Except.ok exDocsDescendants) ∧
    (entry_info defaultConfig exDocs ∈ (scan_items defaultConfig [exDocs]).folders ∧
      (entry_info defaultConfig exDocs).file_count =
        some (visible_file_count defaultConfig exDocs)) ∧
    (entry_info defaultConfig exDocs).file_count = some 3 :=
  ⟨⟨List.mem_singleton.mpr rfl, rfl, by decide, rfl⟩,
    C4_file_count_spec defaultConfig [exDocs] exDocs exDocsDescendants
      (List.mem_singleton.mpr rfl) rfl (by decide) rfl,
    by decide⟩

/-- C6: when a surviving directory's recursive sub-scan fails, the bare
`except:` catches it at that entry: its `file_count` is 0, and the parent
scan still lists it and every other surviving sibling, exactly as if the
siblings were scanned on their own. -/
theorem C6_subscan_failure_local (cfg : Config) (pre post : List FSEntry)
    (e : FSEntry) (hdir : e.isDir = true)
    (hkeep : should_ignore cfg e.name e.isDir = false)
    (herr : rglobEntry e = Except.error ()) :
    (entry_info cfg e).file_count = some 0 ∧
    (scan_items cfg (pre ++ e :: post)).folders =
      (scan_items cfg pre).folders ++ entry_info cfg e :: (scan_items cfg post).folders ∧
    (scan_items cfg (pre ++ e :: post)).files =
      (scan_items cfg pre).files ++ (scan_items cfg post).files := by
  rw [hdir] at hkeep
  refine ⟨?_, ?_, ?_⟩
  · cases e with
    | file n sz m c => simp [FSEntry.isDir] at hdir
    | dir n m c r cs =>
      simp only [entry_info, Option.some.injEq]
      rw [file_count_of, herr]
  · simp [scan_items, List.filter_append, List.filter_cons, hkeep, hdir]
  · simp [scan_items, List.filter_append, List.filter_cons, hkeep, hdir]

/-- C6 witness: the folder `data` has an unreadable nested directory, so
its sub-scan fails; its count is 0 and its siblings `z.txt` and `y.txt`
are still scanned. -/
theorem C6_subscan_failure_local_witness :
    (exData.isDir = true ∧
      should_ignore defaultConfig exData.name exData.isDir = false ∧
      rglobEntry exData = Except.error ()) ∧
    ((entry_info defaultConfig exData).file_count = some 0 ∧
      (scan_items defaultConfig ([.file "z.txt" 1 0 0] ++ exData :: [.file "y.txt" 2 0 0])).folders =
        (scan_items defaultConfig [.file "z.txt" 1 0 0]).folders ++
          entry_info defaultConfig exData ::
            (scan_items defaultConfig [.file "y.txt" 2 0 0]).folders ∧
      (scan_items defaultConfig ([.file "z.txt" 1 0 0] ++ exData :: [.file "y.txt" 2 0 0])).files =
        (scan_items defaultConfig [.file "z.txt" 1 0 0]).files ++
          (scan_items defaultConfig [.file "y.txt" 2 0 0]).files) :=
  ⟨⟨rfl, by decide, rfl⟩,
    C6_subscan_failure_local defaultConfig [.file "z.txt" 1 0 0]
      [.file "y.txt" 2 0 0] exData rfl (by decide) rfl⟩

end ArchWay
